import Mathlib

/-!
Verification of the daily IPO monitor (ipo_monitor.py / test_ipo_monitor.py).

The program is a three-stage pipeline: fetch today's IPO calendar events,
filter them against a fixed monetary threshold, render an HTML report and
send it by mail.  We embed the pipeline shallowly: Python dict records
become structures with optional fields, dynamically typed values become a
small `PyVal` type (the program only ever stores ints and strings in the
fields it reads), and code paths that can raise become `Except String`
computations whose error value records the Python exception.
-/

namespace IpoMonitor

/-- Dynamic Python value, restricted to the two shapes the program stores in
event fields: integers (counts and monetary values) and strings. -/
inductive PyVal where
  | intV (n : Int)
  | strV (s : String)
deriving DecidableEq, Repr

/-- Python truthiness: `0` and `""` are falsy, everything else truthy. -/
def PyVal.truthy : PyVal → Bool
  | .intV n => n != 0
  | .strV s => s != ""

/-- Python `str()` of a value, as used by plain f-string interpolation. -/
def PyVal.pyStr : PyVal → String
  | .intV n => toString n
  | .strV s => s

/-- `true` iff the value is an integer. -/
def PyVal.isInt : PyVal → Bool
  | .intV _ => true
  | .strV _ => false

/-- `true` iff the value is a string. -/
def PyVal.isStr : PyVal → Bool
  | .intV _ => false
  | .strV _ => true

/-- Exception text for Python's `str >= int` comparison. -/
def geTypeErr : String := "TypeError: >= not supported between instances of str and int"

/-- Python `v >= m` with `m : Int`: defined for ints, raises `TypeError`
for strings (`ipo_monitor.py` line 63 compares `total_value` with the
threshold). -/
def pyGeInt : PyVal → Int → Except String Bool
  | .intV n, m => .ok (decide (m ≤ n))
  | .strV _, _ => .error geTypeErr

/-- Insert a comma separator after every third digit of a reversed digit
list (the helper behind Python's thousands-separator format spec). -/
def commaRevAux : List Char → Nat → List Char
  | [], _ => []
  | c :: cs, k =>
    if k ≠ 0 ∧ k % 3 = 0 then ',' :: c :: commaRevAux cs (k + 1)
    else c :: commaRevAux cs (k + 1)

/-- Python `format(n, ",")` for a natural number. -/
def addCommasNat (n : Nat) : String :=
  String.mk ((commaRevAux (toString n).data.reverse 0).reverse)

/-- Python `format(n, ",")` for an integer. -/
def addCommasInt (n : Int) : String :=
  if n < 0 then "-" ++ addCommasNat n.natAbs else addCommasNat n.natAbs

/-- Exception text for Python's comma format spec applied to a `str`. -/
def commaFormatErr : String := "ValueError: Cannot specify a comma with s"

/-- Python f-string interpolation with the `:,` format spec: formats ints
with thousands separators and raises `ValueError` on strings. -/
def pyFormatComma : PyVal → Except String String
  | .intV n => .ok (addCommasInt n)
  | .strV _ => .error commaFormatErr

/-- One raw IPO calendar entry as returned by the upstream API: a dict in
which every field of interest may be absent (`ipo.get(...)` is used for
every read). -/
structure RawEvent where
  symbol : Option PyVal
  name : Option PyVal
  exchange : Option PyVal
  price : Option PyVal
  numberOfShares : Option PyVal
  totalSharesValue : Option PyVal
  status : Option PyVal
  date : Option PyVal
deriving DecidableEq, Repr

/-- One normalized qualifying record as appended by `filter_large_ipos`
(`ipo_monitor.py` lines 64-73): every field present, absent source fields
defaulted to the string `"N/A"`, and the monetary value stored under the
key `offer_amount`. -/
structure QualifyingEvent where
  symbol : PyVal
  name : PyVal
  exchange : PyVal
  price : PyVal
  shares : PyVal
  offer_amount : PyVal
  status : PyVal
  date : PyVal
deriving DecidableEq, Repr

/-- `MIN_OFFER_AMOUNT = 200_000_000` (`ipo_monitor.py` line 27). -/
def MIN_OFFER_AMOUNT : Int := 200000000

/-- The dict literal appended for a qualifying entry: each field is
`ipo.get(key, "N/A")` and `offer_amount` is the extracted `total_value`. -/
def mkQualifying (ipo : RawEvent) (total_value : PyVal) : QualifyingEvent :=
  ⟨ipo.symbol.getD (.strV "N/A"), ipo.name.getD (.strV "N/A"),
   ipo.exchange.getD (.strV "N/A"), ipo.price.getD (.strV "N/A"),
   ipo.numberOfShares.getD (.strV "N/A"), total_value,
   ipo.status.getD (.strV "N/A"), ipo.date.getD (.strV "N/A")⟩

/-- `total_value = ipo.get("totalSharesValue", 0)` (`ipo_monitor.py`
line 60). -/
def rawValue (ipo : RawEvent) : PyVal := ipo.totalSharesValue.getD (.intV 0)

/-- One iteration of the filter loop body: test
`total_value and total_value >= MIN_OFFER_AMOUNT` (short-circuit: a falsy
value is never compared, so it cannot raise) and build the normalized
record on success. -/
def filterStep (ipo : RawEvent) : Except String (Option QualifyingEvent) :=
  let total_value := rawValue ipo
  if total_value.truthy then do
    let b ← pyGeInt total_value MIN_OFFER_AMOUNT
    if b then pure (some (mkQualifying ipo total_value)) else pure none
  else
    pure none

/-- `filter_large_ipos` (`ipo_monitor.py` lines 52-75; the copy in
`test_ipo_monitor.py` lines 43-62 is textually identical): a linear scan
appending the normalized record for each entry that passes the threshold
test.  An uncaught `TypeError` from the comparison aborts the whole call. -/
def filter_large_ipos : List RawEvent → Except String (List QualifyingEvent)
  | [] => .ok []
  | ipo :: rest => do
    let o ← filterStep ipo
    let tail ← filter_large_ipos rest
    pure (match o with | some q => q :: tail | none => tail)

/-- Pure membership test matching the loop guard, usable only when the
value field is an int (or absent, defaulting to the int `0`): truthy and
at least the threshold. -/
def qualifies (ipo : RawEvent) : Bool :=
  (rawValue ipo).truthy &&
    (match rawValue ipo with
     | .intV n => decide (MIN_OFFER_AMOUNT ≤ n)
     | .strV _ => false)

/-- `true` when the `totalSharesValue` field is an integer or absent, the
shapes on which the comparison with the threshold cannot raise. -/
def numericOrAbsent (ipo : RawEvent) : Bool :=
  match ipo.totalSharesValue with
  | none => true
  | some (.intV _) => true
  | some (.strV _) => false

theorem ok_bind {α β : Type} (a : α) (f : α → Except String β) :
    (do let x ← Except.ok a; f x) = f a := rfl

theorem pure_eq_ok {α : Type} (a : α) : (pure a : Except String α) = .ok a := rfl

theorem err_bind {α β : Type} (e : String) (f : α → Except String β) :
    (do let x ← Except.error e; f x) = .error e := rfl

theorem filterStep_numeric (r : RawEvent) (h : numericOrAbsent r = true) :
    filterStep r =
      .ok (if qualifies r then some (mkQualifying r (rawValue r)) else none) := by
  unfold numericOrAbsent at h
  unfold filterStep qualifies rawValue
  rcases hm : r.totalSharesValue with _ | v
  · simp [hm, PyVal.truthy, pure_eq_ok]
  · rcases v with n | s
    · by_cases hz : n = 0
      · simp [hm, hz, PyVal.truthy, pure_eq_ok]
      · by_cases hge : MIN_OFFER_AMOUNT ≤ n
        · simp [hm, hz, hge, PyVal.truthy, pyGeInt, ok_bind, pure_eq_ok]
        · simp [hm, hz, hge, PyVal.truthy, pyGeInt, ok_bind, pure_eq_ok]
    · rw [hm] at h
      simp at h

/-- C1: over raw events whose monetary-value field is numeric or absent,
`filter_large_ipos` keeps exactly the records whose value (defaulted to 0
when absent) is truthy and at least the 200 000 000 threshold, normalized
and in order; in particular a value exactly at the threshold is kept, and
a value strictly below it, zero, or absent is dropped. -/
theorem filter_keeps_iff_threshold (l : List RawEvent)
    (h : ∀ r ∈ l, numericOrAbsent r = true) :
    filter_large_ipos l =
      .ok (l.filterMap
        (fun r => if qualifies r then some (mkQualifying r (rawValue r)) else none))
    ∧ (∀ r : RawEvent, r.totalSharesValue = some (.intV MIN_OFFER_AMOUNT) →
        filter_large_ipos [r] = .ok [mkQualifying r (.intV MIN_OFFER_AMOUNT)])
    ∧ (∀ (r : RawEvent) (n : Int), r.totalSharesValue = some (.intV n) →
        n < MIN_OFFER_AMOUNT → filter_large_ipos [r] = .ok [])
    ∧ (∀ r : RawEvent, r.totalSharesValue = none → filter_large_ipos [r] = .ok []) := by
  refine ⟨?_, ?_, ?_, ?_⟩
  · induction l with
    | nil => rfl
    | cons a as ih =>
      have ha : numericOrAbsent a = true := h a (by simp)
      have hrest : ∀ r ∈ as, numericOrAbsent r = true := fun r hr => h r (by simp [hr])
      unfold filter_large_ipos
      rw [filterStep_numeric a ha, ih hrest]
      by_cases hq : qualifies a
      · simp [hq, ok_bind, pure_eq_ok]
      · simp [hq, ok_bind, pure_eq_ok]
  · intro r hr
    unfold filter_large_ipos filter_large_ipos filterStep rawValue
    simp [hr, PyVal.truthy, pyGeInt, MIN_OFFER_AMOUNT, ok_bind, pure_eq_ok]
  · intro r n hr hn
    have hz : ¬ MIN_OFFER_AMOUNT ≤ n := by omega
    by_cases h0 : n = 0
    · unfold filter_large_ipos filter_large_ipos filterStep rawValue
      simp [hr, h0, PyVal.truthy, pure_eq_ok, ok_bind]
    · unfold filter_large_ipos filter_large_ipos filterStep rawValue
      simp [hr, h0, hz, PyVal.truthy, pyGeInt, ok_bind, pure_eq_ok]
  · intro r hr
    unfold filter_large_ipos filter_large_ipos filterStep rawValue
    simp [hr, PyVal.truthy, pure_eq_ok, ok_bind]

/-- Witness instantiating the hypotheses of the C1 theorem at a concrete
two-element list (one record at the threshold, one below). -/
theorem filter_keeps_iff_threshold_witness :
    filter_large_ipos
        [⟨none, none, none, none, none, some (.intV 200000000), none, none⟩,
         ⟨none, none, none, none, none, some (.intV 199999999), none, none⟩] =
      .ok ([⟨none, none, none, none, none, some (.intV 200000000), none, none⟩,
            ⟨none, none, none, none, none, some (.intV 199999999), none, none⟩].filterMap
        (fun r => if qualifies r then some (mkQualifying r (rawValue r)) else none)) :=
  (filter_keeps_iff_threshold
    [⟨none, none, none, none, none, some (.intV 200000000), none, none⟩,
     ⟨none, none, none, none, none, some (.intV 199999999), none, none⟩]
    (by decide)).1

/-- The first mock record of `test_ipo_monitor.py` (lines 9-18). -/
def mockIpo1 : RawEvent :=
  ⟨some (.strV "MEVOU"), some (.strV "M Evo Global Acquisition Corp II"),
   some (.strV "NASDAQ Global"), some (.strV "10.00"), some (.intV 27000000),
   some (.intV 270000000), some (.strV "expected"), some (.strV "2026-01-30")⟩

/-- The second mock record of `test_ipo_monitor.py` (lines 19-28). -/
def mockIpo2 : RawEvent :=
  ⟨some (.strV "MUZEU"), some (.strV "Muzero Acquisition Corp"),
   some (.strV "NASDAQ Global"), some (.strV "10.00"), some (.intV 17500000),
   some (.intV 175000000), some (.strV "expected"), some (.strV "2026-01-30")⟩

/-- The third mock record of `test_ipo_monitor.py` (lines 29-38). -/
def mockIpo3 : RawEvent :=
  ⟨some (.strV "TESTIPO"), some (.strV "Test Large IPO Company"),
   some (.strV "NYSE"), some (.strV "25.00"), some (.intV 20000000),
   some (.intV 500000000), some (.strV "priced"), some (.strV "2026-01-30")⟩

/-- `MOCK_IPO_DATA` (`test_ipo_monitor.py` lines 8-39). -/
def MOCK_IPO_DATA : List RawEvent := [mockIpo1, mockIpo2, mockIpo3]

theorem filterStep_some_inv (r : RawEvent) (q : QualifyingEvent)
    (h : filterStep r = .ok (some q)) :
    ∃ n : Int, r.totalSharesValue = some (.intV n) ∧ MIN_OFFER_AMOUNT ≤ n ∧
      q = mkQualifying r (.intV n) := by
  unfold filterStep rawValue at h
  rcases hm : r.totalSharesValue with _ | v
  · rw [hm] at h
    simp [PyVal.truthy, pure_eq_ok] at h
  · rcases v with n | s
    · rw [hm] at h
      by_cases hz : n = 0
      · simp [hz, PyVal.truthy, pure_eq_ok] at h
      · by_cases hge : MIN_OFFER_AMOUNT ≤ n
        · simp [hz, hge, PyVal.truthy, pyGeInt, ok_bind, pure_eq_ok] at h
          exact ⟨n, rfl, hge, h.symm⟩
        · simp [hz, hge, PyVal.truthy, pyGeInt, ok_bind, pure_eq_ok] at h
    · rw [hm] at h
      by_cases ht : s = ""
      · simp [ht, PyVal.truthy, pure_eq_ok] at h
      · simp [ht, PyVal.truthy, pyGeInt, err_bind] at h

theorem filter_ok_sublist (l : List RawEvent) (qs : List QualifyingEvent)
    (h : filter_large_ipos l = .ok qs) :
    qs.Sublist (l.map (fun r => mkQualifying r (rawValue r))) := by
  induction l generalizing qs with
  | nil =>
    unfold filter_large_ipos at h
    injection h with h
    subst h
    exact List.Sublist.refl []
  | cons a as ih =>
    unfold filter_large_ipos at h
    rcases hs : filterStep a with e | o
    · rw [hs, err_bind] at h
      simp at h
    · rw [hs, ok_bind] at h
      rcases hf : filter_large_ipos as with e | tail
      · rw [hf, err_bind] at h
        simp at h
      · rw [hf, ok_bind, pure_eq_ok] at h
        injection h with h
        subst h
        cases o with
        | none => exact List.Sublist.cons _ (ih tail hf)
        | some q =>
          obtain ⟨n, hn, _, hq⟩ := filterStep_some_inv a q hs
          have hv : rawValue a = .intV n := by simp [rawValue, hn]
          subst hq
          rw [List.map_cons, hv]
          exact List.Sublist.cons₂ _ (ih tail hf)

/-- C2: on the three mock records (values 270 000 000, 175 000 000 and
500 000 000), `filter_large_ipos` returns exactly the two records derived
from the first and third inputs, in that order; and in general the filter
is an order-preserving linear scan: any successful output is a sublist of
the input list's normalizations. -/
theorem filter_mock_scenario :
    filter_large_ipos MOCK_IPO_DATA =
      .ok [mkQualifying mockIpo1 (.intV 270000000),
           mkQualifying mockIpo3 (.intV 500000000)]
    ∧ ∀ (l : List RawEvent) (qs : List QualifyingEvent),
        filter_large_ipos l = .ok qs →
        qs.Sublist (l.map (fun r => mkQualifying r (rawValue r))) :=
  ⟨rfl, filter_ok_sublist⟩

/-- Witness applying the C2 theorem's general conjunct to the mock list. -/
theorem filter_mock_scenario_witness :
    [mkQualifying mockIpo1 (.intV 270000000),
     mkQualifying mockIpo3 (.intV 500000000)].Sublist
      (MOCK_IPO_DATA.map (fun r => mkQualifying r (rawValue r))) :=
  filter_mock_scenario.2 MOCK_IPO_DATA _ filter_mock_scenario.1

/-- C5: every record in a successful filter output is fully populated:
its `offer_amount` is the source's present, threshold-meeting integer
`totalSharesValue`, and every other field is the source field defaulted
to the string `"N/A"` when absent. -/
theorem filter_output_fully_populated (l : List RawEvent)
    (qs : List QualifyingEvent) (h : filter_large_ipos l = .ok qs) :
    ∀ q ∈ qs, ∃ r ∈ l, ∃ n : Int,
      r.totalSharesValue = some (.intV n) ∧ MIN_OFFER_AMOUNT ≤ n ∧
      q.offer_amount = .intV n ∧
      q.symbol = r.symbol.getD (.strV "N/A") ∧
      q.name = r.name.getD (.strV "N/A") ∧
      q.exchange = r.exchange.getD (.strV "N/A") ∧
      q.price = r.price.getD (.strV "N/A") ∧
      q.shares = r.numberOfShares.getD (.strV "N/A") ∧
      q.status = r.status.getD (.strV "N/A") ∧
      q.date = r.date.getD (.strV "N/A") := by
  induction l generalizing qs with
  | nil =>
    unfold filter_large_ipos at h
    injection h with h
    subst h
    intro q hq
    simp at hq
  | cons a as ih =>
    unfold filter_large_ipos at h
    rcases hs : filterStep a with e | o
    · rw [hs, err_bind] at h
      simp at h
    · rw [hs, ok_bind] at h
      rcases hf : filter_large_ipos as with e | tail
      · rw [hf, err_bind] at h
        simp at h
      · rw [hf, ok_bind, pure_eq_ok] at h
        injection h with h
        subst h
        intro q hq
        cases o with
        | none =>
          obtain ⟨r, hr, rest⟩ := ih tail hf q hq
          exact ⟨r, List.mem_cons_of_mem a hr, rest⟩
        | some q0 =>
          rcases List.mem_cons.mp hq with hq0 | hqt
          · subst hq0
            obtain ⟨n, hn, hge, hqe⟩ := filterStep_some_inv a q hs
            subst hqe
            exact ⟨a, List.mem_cons_self a as, n, hn, hge,
              rfl, rfl, rfl, rfl, rfl, rfl, rfl, rfl⟩
          · obtain ⟨r, hr, rest⟩ := ih tail hf q hqt
            exact ⟨r, List.mem_cons_of_mem a hr, rest⟩

/-- Witness applying the C5 theorem to the singleton mock list. -/
theorem filter_output_fully_populated_witness :
    ∃ r ∈ [mockIpo1], ∃ n : Int,
      r.totalSharesValue = some (.intV n) ∧ MIN_OFFER_AMOUNT ≤ n ∧
      (mkQualifying mockIpo1 (.intV 270000000)).offer_amount = .intV n ∧
      (mkQualifying mockIpo1 (.intV 270000000)).symbol = r.symbol.getD (.strV "N/A") ∧
      (mkQualifying mockIpo1 (.intV 270000000)).name = r.name.getD (.strV "N/A") ∧
      (mkQualifying mockIpo1 (.intV 270000000)).exchange = r.exchange.getD (.strV "N/A") ∧
      (mkQualifying mockIpo1 (.intV 270000000)).price = r.price.getD (.strV "N/A") ∧
      (mkQualifying mockIpo1 (.intV 270000000)).shares = r.numberOfShares.getD (.strV "N/A") ∧
      (mkQualifying mockIpo1 (.intV 270000000)).status = r.status.getD (.strV "N/A") ∧
      (mkQualifying mockIpo1 (.intV 270000000)).date = r.date.getD (.strV "N/A") :=
  filter_output_fully_populated [mockIpo1]
    [mkQualifying mockIpo1 (.intV 270000000)] rfl
    (mkQualifying mockIpo1 (.intV 270000000)) (List.mem_singleton.mpr rfl)

/-- A qualifying dict read back as a raw event, as it is when
`filter_large_ipos` is applied to its own output: the eight raw keys are
looked up in the output dict, whose keys are `symbol`, `name`, `exchange`,
`price`, `shares`, `offer_amount`, `status`, `date` — so `numberOfShares`
and in particular `totalSharesValue` are absent. -/
def QualifyingEvent.toRaw (q : QualifyingEvent) : RawEvent :=
  ⟨some q.symbol, some q.name, some q.exchange, some q.price,
   none, none, some q.status, some q.date⟩

/-- C8 counterexample: at the concrete input `[mockIpo1]` the filter keeps
one record, but re-filtering that output yields the empty list, because
the output dict has no `totalSharesValue` key (the value moved to
`offer_amount`), so the claimed idempotence equation is false. -/
theorem filter_not_idempotent_cex :
    filter_large_ipos [mockIpo1] =
      .ok [mkQualifying mockIpo1 (.intV 270000000)]
    ∧ filter_large_ipos
        ([mkQualifying mockIpo1 (.intV 270000000)].map QualifyingEvent.toRaw) =
      .ok []
    ∧ ([] : List QualifyingEvent) ≠ [mkQualifying mockIpo1 (.intV 270000000)] :=
  ⟨rfl, rfl, by simp⟩

theorem refilter_toRaw_empty (qs : List QualifyingEvent) :
    filter_large_ipos (qs.map QualifyingEvent.toRaw) = .ok [] := by
  induction qs with
  | nil => rfl
  | cons q qt ih =>
    have hstep : filterStep q.toRaw = .ok none := by
      unfold filterStep rawValue QualifyingEvent.toRaw
      simp [PyVal.truthy, pure_eq_ok]
    rw [List.map_cons]
    unfold filter_large_ipos
    rw [hstep, ok_bind, ih, ok_bind, pure_eq_ok]

/-- C8 amended: applying `filter_large_ipos` to its own successful output
is not a no-op but always yields the empty list, since qualifying records
store the monetary value under `offer_amount` and lack `totalSharesValue`;
the original equation holds only when the first application returns `[]`. -/
theorem filter_refilter_empty (xs : List RawEvent) (qs : List QualifyingEvent)
    (_h : filter_large_ipos xs = .ok qs) :
    filter_large_ipos (qs.map QualifyingEvent.toRaw) = .ok [] :=
  refilter_toRaw_empty qs

/-- Witness applying the amended C8 theorem to the singleton mock list. -/
theorem filter_refilter_empty_witness :
    filter_large_ipos
        ([mkQualifying mockIpo1 (.intV 270000000)].map QualifyingEvent.toRaw) =
      .ok [] :=
  filter_refilter_empty [mockIpo1] [mkQualifying mockIpo1 (.intV 270000000)] rfl

/-- C10: a truthy string in `totalSharesValue` makes the comparison with
the integer threshold raise `TypeError`, aborting the whole filter call;
a falsy (empty) string is short-circuited away and merely excluded. -/
theorem filter_string_value_type_error (r : RawEvent) (s : String)
    (rest : List RawEvent) (h : r.totalSharesValue = some (.strV s))
    (hs : s ≠ "") :
    filter_large_ipos (r :: rest) = .error geTypeErr
    ∧ ∀ r2 : RawEvent, r2.totalSharesValue = some (.strV "") →
        filter_large_ipos [r2] = .ok [] := by
  constructor
  · unfold filter_large_ipos filterStep rawValue
    simp [h, hs, PyVal.truthy, pyGeInt, err_bind]
  · intro r2 h2
    unfold filter_large_ipos filter_large_ipos filterStep rawValue
    simp [h2, PyVal.truthy, pure_eq_ok, ok_bind]

/-- Witness applying the C10 theorem to a record whose value field holds
the non-empty string `"pending"`. -/
theorem filter_string_value_type_error_witness :
    filter_large_ipos
        [⟨none, none, none, none, none, some (.strV "pending"), none, none⟩] =
      .error geTypeErr :=
  (filter_string_value_type_error
    ⟨none, none, none, none, none, some (.strV "pending"), none, none⟩
    "pending" [] rfl (by decide)).1

/-- One table row of the populated template (`ipo_monitor.py` lines
98-108): plain interpolation for `symbol`, `name`, `exchange`, `price`
and `status`, thousands-separator interpolation for `shares` and
`offer_amount` (which raises `ValueError` on a string value). -/
def formatRow (ipo : QualifyingEvent) : Except String String := do
  let sharesStr ← pyFormatComma ipo.shares
  let offerStr ← pyFormatComma ipo.offer_amount
  pure ("\n        <tr>\n            <td style=\"padding: 8px; border: 1px solid #ddd;\"><strong>"
    ++ ipo.symbol.pyStr
    ++ "</strong></td>\n            <td style=\"padding: 8px; border: 1px solid #ddd;\">"
    ++ ipo.name.pyStr
    ++ "</td>\n            <td style=\"padding: 8px; border: 1px solid #ddd;\">"
    ++ ipo.exchange.pyStr
    ++ "</td>\n            <td style=\"padding: 8px; border: 1px solid #ddd;\">$"
    ++ ipo.price.pyStr
    ++ "</td>\n            <td style=\"padding: 8px; border: 1px solid #ddd;\">"
    ++ sharesStr
    ++ "</td>\n            <td style=\"padding: 8px; border: 1px solid #ddd;\"><strong>$"
    ++ offerStr
    ++ "</strong></td>\n            <td style=\"padding: 8px; border: 1px solid #ddd;\">"
    ++ ipo.status.pyStr
    ++ "</td>\n        </tr>\n")

/-- The `rows` accumulation loop of `format_email_body` (`ipo_monitor.py`
lines 96-108): starts from `""` and appends one formatted row per record. -/
def buildRows (acc : String) : List QualifyingEvent → Except String String
  | [] => .ok acc
  | ipo :: rest => do
    let row ← formatRow ipo
    buildRows (acc ++ row) rest

/-- The list of individual formatted rows, in input order. -/
def rowsList : List QualifyingEvent → Except String (List String)
  | [] => .ok []
  | q :: rest => do
    let r ← formatRow q
    let t ← rowsList rest
    pure (r :: t)

/-- Concatenation of a list of rendered rows. -/
def concatRows : List String → String
  | [] => ""
  | r :: rs => r ++ concatRows rs

/-- Exception text for Python's `str.join` applied to a non-string item. -/
def joinTypeErr : String := "TypeError: sequence item: expected str instance, int found"

/-- `", ".join([...])` item collection: gathers the string items in order
and raises `TypeError` at the first non-string item. -/
def joinSyms : List PyVal → Except String (List String)
  | [] => .ok []
  | .strV s :: rest => do
    let t ← joinSyms rest
    pure (s :: t)
  | .intV _ :: _ => .error joinTypeErr

/-- Fixed text of the no-events template before the date
(`ipo_monitor.py` lines 84-92). -/
def emptyHead : String := "\n<html>\n<body>\n<h2>Daily IPO Monitor - "

/-- Fixed text of the no-events template after the date, with the
threshold interpolated with thousands separators. -/
def emptyTail : String :=
  "</h2>\n<p>No U.S. IPOs with offer amounts above $"
    ++ addCommasInt MIN_OFFER_AMOUNT
    ++ " found for today.</p>\n<p><em>This is an automated message from your IPO monitoring system.</em></p>\n</body>\n</html>\n"

/-- Populated template text before the date (`ipo_monitor.py` line 113). -/
def bodyHeadA : String := "\n<html>\n<body>\n<h2>Daily IPO Monitor - "

/-- Populated template text between the date and the match count. -/
def bodyHeadB : String := "</h2>\n<p>Found <strong>"

/-- Populated template text between the match count and the threshold. -/
def bodyHeadC : String := "</strong> U.S. IPO(s) with offer amounts above $"

/-- Populated template table header, between the threshold and the rows
(`ipo_monitor.py` lines 116-129). -/
def bodyTableHead : String :=
  ":</p>\n\n<table style=\"border-collapse: collapse; width: 100%; margin-top: 20px;\">\n    <thead>\n        <tr style=\"background-color: #4CAF50; color: white;\">\n            <th style=\"padding: 10px; border: 1px solid #ddd;\">Ticker</th>\n            <th style=\"padding: 10px; border: 1px solid #ddd;\">Company Name</th>\n            <th style=\"padding: 10px; border: 1px solid #ddd;\">Exchange</th>\n            <th style=\"padding: 10px; border: 1px solid #ddd;\">Price</th>\n            <th style=\"padding: 10px; border: 1px solid #ddd;\">Shares</th>\n            <th style=\"padding: 10px; border: 1px solid #ddd;\">Offer Amount</th>\n            <th style=\"padding: 10px; border: 1px solid #ddd;\">Status</th>\n        </tr>\n    </thead>\n    <tbody>\n"

/-- Populated template text between the rows and the ticker summary. -/
def bodySummaryPre : String :=
  "\n    </tbody>\n</table>\n\n<p style=\"margin-top: 20px;\"><strong>Summary of Tickers:</strong> "

/-- Populated template text after the ticker summary
(`ipo_monitor.py` lines 133-138). -/
def bodyTail : String :=
  "</p>\n\n<p style=\"margin-top: 30px; color: #666;\"><em>This is an automated message from your IPO monitoring system.</em></p>\n</body>\n</html>\n"

/-- `format_email_body` (`ipo_monitor.py` lines 77-139): the no-events
template when the list is empty, otherwise the table template built from
the accumulated rows, the match count, the formatted threshold and the
comma-joined ticker summary. -/
def format_email_body (today : String) (ipos : List QualifyingEvent) :
    Except String String :=
  if ipos.isEmpty then
    .ok (emptyHead ++ today ++ emptyTail)
  else do
    let rows ← buildRows "" ipos
    let syms ← joinSyms (ipos.map QualifyingEvent.symbol)
    pure (bodyHeadA ++ today ++ bodyHeadB ++ toString ipos.length ++ bodyHeadC
      ++ addCommasInt MIN_OFFER_AMOUNT ++ bodyTableHead ++ rows ++ bodySummaryPre
      ++ String.intercalate ", " syms ++ bodyTail)

theorem buildRows_eq_rowsList (l : List QualifyingEvent) :
    ∀ acc : String, buildRows acc l = (rowsList l).map (fun rs => acc ++ concatRows rs) := by
  induction l with
  | nil =>
    intro acc
    simp [buildRows, rowsList, concatRows, Except.map]
  | cons q qt ih =>
    intro acc
    unfold buildRows rowsList
    rcases hr : formatRow q with e | r
    · rw [err_bind, err_bind]
      rfl
    · rw [ok_bind, ok_bind, ih (acc ++ r)]
      rcases ht : rowsList qt with e | t
      · rw [err_bind]
        rfl
      · rw [ok_bind, pure_eq_ok]
        simp [Except.map, concatRows, String.append_assoc]

theorem formatRow_isOk (q : QualifyingEvent) (h1 : q.shares.isInt = true)
    (h2 : q.offer_amount.isInt = true) : (formatRow q).isOk = true := by
  rcases hs : q.shares with n | s
  · rcases ho : q.offer_amount with m | s2
    · unfold formatRow
      rw [hs, ho]
      rfl
    · rw [ho] at h2
      simp [PyVal.isInt] at h2
  · rw [hs] at h1
    simp [PyVal.isInt] at h1

theorem rowsList_ok (l : List QualifyingEvent)
    (h : ∀ q ∈ l, q.shares.isInt = true ∧ q.offer_amount.isInt = true) :
    ∃ rows : List String, rowsList l = .ok rows ∧ rows.length = l.length := by
  induction l with
  | nil => exact ⟨[], rfl, rfl⟩
  | cons q qt ih =>
    have hok := formatRow_isOk q (h q (by simp)).1 (h q (by simp)).2
    rcases hr : formatRow q with e | r
    · rw [hr] at hok
      simp [Except.isOk, Except.toBool] at hok
    · obtain ⟨rows, hrows, hlen⟩ := ih (fun x hx => h x (by simp [hx]))
      refine ⟨r :: rows, ?_, by simp [hlen]⟩
      unfold rowsList
      rw [hr, ok_bind, hrows, ok_bind, pure_eq_ok]

theorem joinSyms_ok (l : List QualifyingEvent)
    (h : ∀ q ∈ l, q.symbol.isStr = true) :
    joinSyms (l.map QualifyingEvent.symbol) =
      .ok (l.map (fun q => q.symbol.pyStr)) := by
  induction l with
  | nil => rfl
  | cons q qt ih =>
    have hq := h q (by simp)
    rcases hs : q.symbol with n | s
    · rw [hs] at hq
      simp [PyVal.isStr] at hq
    · rw [List.map_cons, List.map_cons, hs]
      simp only [joinSyms]
      rw [ih (fun x hx => h x (by simp [hx])), ok_bind, pure_eq_ok]
      simp [PyVal.pyStr]

/-- C3: rendering a non-empty qualifying list whose `shares` and
`offer_amount` fields are numeric and whose `symbol` fields are strings
yields exactly one table row per record, in input order (the rows section
is the concatenation of the per-record row list, of the same length as
the input), a header count equal to the list length, and a ticker summary
whose comma-joined tokens are the records' symbols in order. -/
theorem format_nonempty_rows_and_summary (today : String)
    (ipos : List QualifyingEvent) (hne : ipos ≠ [])
    (h : ∀ q ∈ ipos, q.shares.isInt = true ∧ q.offer_amount.isInt = true ∧
      q.symbol.isStr = true) :
    ∃ rows : List String,
      rowsList ipos = .ok rows ∧
      rows.length = ipos.length ∧
      format_email_body today ipos =
        .ok (bodyHeadA ++ today ++ bodyHeadB ++ toString ipos.length ++ bodyHeadC
          ++ addCommasInt MIN_OFFER_AMOUNT ++ bodyTableHead ++ concatRows rows
          ++ bodySummaryPre
          ++ String.intercalate ", " (ipos.map (fun q => q.symbol.pyStr))
          ++ bodyTail) := by
  obtain ⟨rows, hrows, hlen⟩ :=
    rowsList_ok ipos (fun q hq => ⟨(h q hq).1, (h q hq).2.1⟩)
  refine ⟨rows, hrows, hlen, ?_⟩
  unfold format_email_body
  rw [if_neg (by simpa using hne)]
  rw [buildRows_eq_rowsList ipos "", hrows]
  rw [show (Except.ok rows : Except String (List String)).map
        (fun rs => "" ++ concatRows rs) = .ok ("" ++ concatRows rows) from rfl]
  rw [show ("" ++ concatRows rows : String) = concatRows rows from rfl]
  rw [ok_bind, joinSyms_ok ipos (fun q hq => (h q hq).2.2), ok_bind, pure_eq_ok]

/-- Witness applying the C3 theorem to a singleton qualifying list. -/
theorem format_nonempty_rows_and_summary_witness :
    ∃ rows : List String,
      rowsList [mkQualifying mockIpo1 (.intV 270000000)] = .ok rows ∧
      rows.length = [mkQualifying mockIpo1 (.intV 270000000)].length ∧
      format_email_body "January 30, 2026" [mkQualifying mockIpo1 (.intV 270000000)] =
        .ok (bodyHeadA ++ "January 30, 2026" ++ bodyHeadB
          ++ toString [mkQualifying mockIpo1 (.intV 270000000)].length ++ bodyHeadC
          ++ addCommasInt MIN_OFFER_AMOUNT ++ bodyTableHead ++ concatRows rows
          ++ bodySummaryPre
          ++ String.intercalate ", "
              ([mkQualifying mockIpo1 (.intV 270000000)].map (fun q => q.symbol.pyStr))
          ++ bodyTail) :=
  format_nonempty_rows_and_summary "January 30, 2026"
    [mkQualifying mockIpo1 (.intV 270000000)] (by simp) (by decide)

/-- `true` iff `pat` occurs as a contiguous substring of the char list. -/
def containsSub (pat : List Char) : List Char → Bool
  | [] => pat.isEmpty
  | c :: cs => pat.isPrefixOf (c :: cs) || containsSub pat cs

/-- `true` iff `pat` occurs as a contiguous substring of `s`. -/
def strContains (s pat : String) : Bool := containsSub pat.data s.data

/-- C4: rendering the empty qualifying list always yields the no-events
template around the date; its fixed text interpolates the threshold with
thousands separators (`$200,000,000`) and contains no table. -/
theorem format_empty_template (today : String) :
    format_email_body today [] = .ok (emptyHead ++ today ++ emptyTail)
    ∧ addCommasInt MIN_OFFER_AMOUNT = "200,000,000"
    ∧ strContains emptyTail ("$" ++ addCommasInt MIN_OFFER_AMOUNT) = true
    ∧ strContains emptyHead "<table" = false
    ∧ strContains emptyTail "<table" = false :=
  ⟨rfl, by decide, by decide, by decide, by decide⟩

/-- A raw event qualifying on value but with `numberOfShares` absent: the
input exhibiting the rendering defect of C9. -/
def mockMissingShares : RawEvent :=
  ⟨some (.strV "BIGCO"), some (.strV "Big Co Holdings"), some (.strV "NYSE"),
   some (.strV "20.00"), none, some (.intV 270000000),
   some (.strV "expected"), some (.strV "2026-01-30")⟩

/-- C9: the code contradicts the claim: a record whose `numberOfShares`
was absent upstream is normalized with `shares = "N/A"`, and rendering it
then raises `ValueError` at the thousands-separator interpolation of the
shares column instead of producing the populated template. -/
theorem render_missing_shares_raises :
    filter_large_ipos [mockMissingShares] =
      .ok [mkQualifying mockMissingShares (.intV 270000000)]
    ∧ (mkQualifying mockMissingShares (.intV 270000000)).shares = .strV "N/A"
    ∧ format_email_body "January 30, 2026"
        [mkQualifying mockMissingShares (.intV 270000000)] =
      .error commaFormatErr :=
  ⟨rfl, rfl, rfl⟩

/-- Outcome of the one SMTP session of `send_email`, the program's
external mail effect: delivered, rejected credentials, or any other
transport exception. -/
inductive MailOutcome where
  | sent
  | authFailure
  | otherFailure (msg : String)
deriving DecidableEq, Repr

/-- The authentication-guidance console message of `send_email`
(`ipo_monitor.py` lines 166-167). -/
def authGuidance : List String :=
  ["✗ Email authentication failed. Check your email address and password.",
   "  For Gmail, make sure you\x27re using an App Password, not your regular password."]

/-- `send_email` (`ipo_monitor.py` lines 141-171): returns `True` and the
success message on delivery; catches `SMTPAuthenticationError` and prints
the specific guidance, and catches any other exception and prints a
generic message, returning `False` in both failure cases. -/
def send_email (emailAddr : String) (outcome : MailOutcome) : Bool × List String :=
  match outcome with
  | .sent => (true, ["✓ Email sent successfully to " ++ emailAddr])
  | .authFailure => (false, authGuidance)
  | .otherFailure e => (false, ["✗ Error sending email: " ++ e])

/-- `main` (`ipo_monitor.py` lines 173-215): filter the fetched list,
render the body (both can raise, which would abort the run before any
send), send the email, and return `0` on send success and `1` otherwise.
The result carries the send's boolean outcome and console messages as
evidence that the send was attempted. -/
def main (emailAddr today : String) (fetched : List RawEvent)
    (outcome : MailOutcome) : Except String (Nat × Bool × List String) := do
  let qualifying_ipos ← filter_large_ipos fetched
  let _body ← format_email_body today qualifying_ipos
  let r := send_email emailAddr outcome
  pure (if r.1 then 0 else 1, r)

/-- C6: when filtering and rendering succeed, `main` always reaches the
send (its result is exactly the send outcome), exits `0` iff the send
succeeded and `1` otherwise; an authentication failure yields exit code
`1` together with the specific guidance message, and with an empty fetch
result the send is still attempted for every outcome. -/
theorem main_exit_code (emailAddr today : String) (fetched : List RawEvent)
    (outcome : MailOutcome) (qs : List QualifyingEvent) (body : String)
    (hfilter : filter_large_ipos fetched = .ok qs)
    (hbody : format_email_body today qs = .ok body) :
    main emailAddr today fetched outcome =
      .ok (if (send_email emailAddr outcome).1 then 0 else 1,
           send_email emailAddr outcome)
    ∧ ((if (send_email emailAddr outcome).1 then (0 : Nat) else 1) = 0 ↔
        outcome = .sent)
    ∧ (outcome = .authFailure →
        main emailAddr today fetched outcome = .ok (1, false, authGuidance))
    ∧ (∀ outcome2 : MailOutcome, main emailAddr today [] outcome2 =
        .ok (if (send_email emailAddr outcome2).1 then 0 else 1,
             send_email emailAddr outcome2)) := by
  have hmain : main emailAddr today fetched outcome =
      .ok (if (send_email emailAddr outcome).1 then 0 else 1,
           send_email emailAddr outcome) := by
    unfold main
    rw [hfilter, ok_bind, hbody, ok_bind, pure_eq_ok]
  refine ⟨hmain, ?_, ?_, ?_⟩
  · cases outcome <;> simp [send_email]
  · intro ha
    subst ha
    rw [hmain]
    rfl
  · intro outcome2
    rfl

/-- Witness applying the C6 theorem to an empty fetch result with an
authentication failure. -/
theorem main_exit_code_witness :
    main "user@example.com" "January 30, 2026" [] .authFailure =
      .ok (1, false, authGuidance) :=
  (main_exit_code "user@example.com" "January 30, 2026" [] .authFailure []
    (emptyHead ++ "January 30, 2026" ++ emptyTail) rfl rfl).2.2.1 rfl

/-- Outcome of the one HTTP GET of `get_todays_ipos`: a JSON body that
may or may not carry the `ipoCalendar` key, or a raised
`requests.exceptions.RequestException` (timeout, DNS error, or the
non-2xx status surfaced by `raise_for_status`). -/
inductive FetchOutcome where
  | success (payload : Option (List RawEvent))
  | failure (e : String)

/-- `get_todays_ipos` (`ipo_monitor.py` lines 29-50): returns
`data.get("ipoCalendar", [])` on success; catches any request exception,
prints the error and returns the empty list. -/
def get_todays_ipos : FetchOutcome → List RawEvent × List String
  | .success payload => (payload.getD [], [])
  | .failure e => ([], ["Error fetching IPO data: " ++ e])

/-- C7: every network-layer failure is caught: `get_todays_ipos` logs
it and returns the empty list instead of raising; an empty list is also
the ordinary result when the response lists no events. -/
theorem fetch_failure_degrades_to_empty :
    (∀ e : String, get_todays_ipos (.failure e) =
      ([], ["Error fetching IPO data: " ++ e]))
    ∧ get_todays_ipos (.success none) = ([], [])
    ∧ ∀ evs : List RawEvent, get_todays_ipos (.success (some evs)) = (evs, []) :=
  ⟨fun _ => rfl, rfl, fun _ => rfl⟩

end IpoMonitor
